import Mathlib

/-!
Verification of the connector-lifecycle core of `zunkiree-search-v1`.

The Python source under `backend/app` is shallowly embedded: Python
`dict[str, str]` values become association lists with first-match lookup and
in-place overwrite on insert (mirroring CPython's insertion-ordered dicts),
`time.time()` and `datetime.utcnow()` become explicit `Int` clock parameters,
outbound HTTP calls become explicit outcome parameters, and raised exceptions
become `Except`/`Option` results.  JSON (de)serialisation of the credential
bundle (`json.dumps`/`json.loads`) is modelled as the identity on the parsed
mapping, so `Connector.credentials` holds the bundle directly.
-/

/-! ## Python-style string dictionaries -/

/-- Model of Python `dict[str, α]`: an association list with unique keys kept
in insertion order.  Lookup returns the first binding. -/
def dlookup {α : Type} (d : List (String × α)) (k : String) : Option α :=
  match d with
  | [] => none
  | kv :: rest => if kv.1 = k then some kv.2 else dlookup rest k

/-- Model of Python `d[k] = v`: overwrite the binding in place if the key is
present, otherwise append it (CPython dicts preserve insertion order). -/
def dinsert {α : Type} (d : List (String × α)) (k : String) (v : α) :
    List (String × α) :=
  match d with
  | [] => [(k, v)]
  | kv :: rest => if kv.1 = k then (k, v) :: rest else kv :: dinsert rest k v

/-- Model of Python `d.pop(k, None)` / `del d[k]`: remove the key. -/
def derase {α : Type} (d : List (String × α)) (k : String) :
    List (String × α) :=
  d.filter (fun kv => kv.1 != k)

/-- Model of Python `d.update(e)`: insert every binding of `e` into `d`. -/
def dupdate {α : Type} (d e : List (String × α)) : List (String × α) :=
  e.foldl (fun acc kv => dinsert acc kv.1 kv.2) d

/-- Truthiness of Python `Optional[str]`: `None` and `""` are falsy. -/
def pyTruthy (o : Option String) : Bool :=
  o.getD "" != ""

theorem dlookup_dinsert_self {α : Type} (d : List (String × α)) (k : String)
    (v : α) : dlookup (dinsert d k v) k = some v := by
  induction d with
  | nil => simp [dinsert, dlookup]
  | cons kv rest ih =>
      by_cases h : kv.1 = k
      · simp [dinsert, dlookup, h]
      · simp [dinsert, dlookup, h, ih]

theorem dlookup_dinsert_ne {α : Type} (d : List (String × α)) (k k' : String)
    (v : α) (h : k' ≠ k) : dlookup (dinsert d k v) k' = dlookup d k' := by
  have hk'k : ¬ (k = k') := fun hh => h hh.symm
  induction d with
  | nil => simp [dinsert, dlookup, hk'k]
  | cons kv rest ih =>
      by_cases hk : kv.1 = k
      · subst hk
        simp [dinsert, dlookup, hk'k]
      · simp [dinsert, dlookup, hk, ih]

theorem dlookup_derase_self {α : Type} (d : List (String × α)) (k : String) :
    dlookup (derase d k) k = none := by
  induction d with
  | nil => simp [derase, dlookup]
  | cons kv rest ih =>
      by_cases h : kv.1 = k
      · have hstep : derase (kv :: rest) k = derase rest k := by
          simp [derase, List.filter_cons, h]
        rw [hstep]; exact ih
      · have hstep : derase (kv :: rest) k = kv :: derase rest k := by
          simp [derase, List.filter_cons, bne_iff_ne, h]
        rw [hstep]
        simp only [dlookup, if_neg h]
        exact ih

theorem dlookup_isSome_iff {α : Type} (d : List (String × α)) (k : String) :
    (dlookup d k).isSome = true ↔ k ∈ d.map Prod.fst := by
  induction d with
  | nil => simp [dlookup]
  | cons kv rest ih =>
      by_cases h : kv.1 = k
      · simp [dlookup, h]
      · have h2 : ¬ (k = kv.1) := fun hh => h hh.symm
        simp [dlookup, h, ih, h2]

theorem dlookup_dinsert_isSome {α : Type} (d : List (String × α))
    (k k' : String) (v : α) :
    (dlookup (dinsert d k v) k').isSome = true ↔
      k' = k ∨ (dlookup d k').isSome = true := by
  by_cases h : k' = k
  · subst h; simp [dlookup_dinsert_self]
  · simp [dlookup_dinsert_ne d k k' v h, h]

theorem dlookup_dupdate_notmem {α : Type} (d e : List (String × α))
    (k : String) (h : k ∉ e.map Prod.fst) :
    dlookup (dupdate d e) k = dlookup d k := by
  induction e generalizing d with
  | nil => rfl
  | cons kv rest ih =>
      simp only [List.map_cons, List.mem_cons] at h
      push_neg at h
      have step : dupdate d (kv :: rest) = dupdate (dinsert d kv.1 kv.2) rest := rfl
      rw [step, ih _ h.2, dlookup_dinsert_ne _ _ _ _ (fun hh => h.1 hh)]

theorem dlookup_dupdate_mem {α : Type} (e : List (String × α)) (k : String)
    (v : α) :
    ∀ d, (e.map Prod.fst).Nodup → (k, v) ∈ e → dlookup (dupdate d e) k = some v := by
  induction e with
  | nil => intro d _ hmem; cases hmem
  | cons kv rest ih =>
      intro d hnd hmem
      simp only [List.map_cons, List.nodup_cons] at hnd
      have step : dupdate d (kv :: rest) = dupdate (dinsert d kv.1 kv.2) rest := rfl
      rcases List.mem_cons.mp hmem with h | h
      · cases h
        rw [step, dlookup_dupdate_notmem _ _ _ hnd.1, dlookup_dinsert_self]
      · exact step ▸ ih (dinsert d kv.1 kv.2) hnd.2 h

theorem dlookup_dupdate_isSome {α : Type} (d e : List (String × α))
    (k : String) :
    (dlookup (dupdate d e) k).isSome = true ↔
      (dlookup d k).isSome = true ∨ k ∈ e.map Prod.fst := by
  induction e generalizing d with
  | nil => simp [dupdate]
  | cons kv rest ih =>
      have step : dupdate d (kv :: rest) = dupdate (dinsert d kv.1 kv.2) rest := rfl
      rw [step, ih]
      rw [dlookup_dinsert_isSome]
      simp only [List.map_cons, List.mem_cons]
      tauto

/-! ## State Store (`oauth_service.py`, `OAuthStateStore`) -/

/-- The `_StateEntry` dataclass of `oauth_service.py`.  `created_at` is the
value of `time.time()` at creation, modelled as an integer clock. -/
structure StateEntry where
  customer_id : String
  provider_id : String
  created_at : Int
deriving DecidableEq, Repr

/-- The in-memory token map of `OAuthStateStore` (`self._store`). -/
abbrev OAuthStateStore := List (String × StateEntry)

/-- `OAuthStateStore._TTL` — 600 seconds. -/
def OAuthStateStore.TTL : Int := 600

/-- `OAuthStateStore._purge_expired`: drop every entry strictly older than the
TTL. -/
def OAuthStateStore.purge_expired (now : Int) (s : OAuthStateStore) :
    OAuthStateStore :=
  s.filter (fun kv => !decide (now - kv.2.created_at > OAuthStateStore.TTL))

/-- `OAuthStateStore.create`: purge expired entries, then store a fresh entry
under the (randomly generated, here explicitly supplied) token and return the
token together with the updated store. -/
def OAuthStateStore.create (s : OAuthStateStore) (now : Int)
    (token customer_id provider_id : String) : String × OAuthStateStore :=
  let s1 := OAuthStateStore.purge_expired now s
  (token, dinsert s1 token ⟨customer_id, provider_id, now⟩)

/-- `OAuthStateStore.consume`: pop the entry (removing it regardless), then
return it only if it has not expired. -/
def OAuthStateStore.consume (s : OAuthStateStore) (now : Int)
    (token : String) : Option StateEntry × OAuthStateStore :=
  match dlookup s token with
  | none => (none, s)
  | some e =>
      let s1 := derase s token
      if now - e.created_at > OAuthStateStore.TTL then (none, s1) else (some e, s1)

theorem consume_eq_of_lookup_none (s : OAuthStateStore) (now : Int)
    (token : String) (h : dlookup s token = none) :
    OAuthStateStore.consume s now token = (none, s) := by
  simp [OAuthStateStore.consume, h]

/-- C1: a token issued by `create` succeeds on at most one `consume`, and only
within 600 seconds of creation.  The first `consume` within the TTL returns
the stored entry and removes it; any later `consume` of the same token (the
token now being absent) returns `none`; and a `consume` after expiry returns
`none` while still removing the entry, leaving nothing behind. -/
theorem consume_single_use (s : OAuthStateStore) (now0 now1 : Int)
    (tok customer provider : String) :
    (now1 - now0 ≤ OAuthStateStore.TTL →
      (OAuthStateStore.consume (OAuthStateStore.create s now0 tok customer provider).2
          now1 (OAuthStateStore.create s now0 tok customer provider).1).1 =
        some ⟨customer, provider, now0⟩ ∧
      dlookup (OAuthStateStore.consume (OAuthStateStore.create s now0 tok customer provider).2
          now1 (OAuthStateStore.create s now0 tok customer provider).1).2 tok = none ∧
      ∀ now2 : Int,
        OAuthStateStore.consume
            (OAuthStateStore.consume (OAuthStateStore.create s now0 tok customer provider).2
              now1 (OAuthStateStore.create s now0 tok customer provider).1).2
            now2 tok =
          (none,
            (OAuthStateStore.consume (OAuthStateStore.create s now0 tok customer provider).2
              now1 (OAuthStateStore.create s now0 tok customer provider).1).2)) ∧
    (now1 - now0 > OAuthStateStore.TTL →
      (OAuthStateStore.consume (OAuthStateStore.create s now0 tok customer provider).2
          now1 (OAuthStateStore.create s now0 tok customer provider).1).1 = none ∧
      dlookup (OAuthStateStore.consume (OAuthStateStore.create s now0 tok customer provider).2
          now1 (OAuthStateStore.create s now0 tok customer provider).1).2 tok = none) := by
  have hcreate :
      (OAuthStateStore.create s now0 tok customer provider).1 = tok ∧
      dlookup (OAuthStateStore.create s now0 tok customer provider).2 tok =
        some ⟨customer, provider, now0⟩ := by
    constructor
    · rfl
    · exact dlookup_dinsert_self _ _ _
  constructor
  · intro h
    have hnot : ¬ (now1 - now0 > OAuthStateStore.TTL) := not_lt.mpr h
    have hc :
        OAuthStateStore.consume (OAuthStateStore.create s now0 tok customer provider).2
            now1 (OAuthStateStore.create s now0 tok customer provider).1 =
          (some ⟨customer, provider, now0⟩,
            derase (OAuthStateStore.create s now0 tok customer provider).2 tok) := by
      rw [hcreate.1]
      simp only [OAuthStateStore.consume, hcreate.2]
      simp [hnot]
    refine ⟨by rw [hc], ?_, ?_⟩
    · rw [hc]
      exact dlookup_derase_self _ _
    · intro now2
      rw [hc]
      exact consume_eq_of_lookup_none _ _ _ (dlookup_derase_self _ _)
  · intro h
    have hc :
        OAuthStateStore.consume (OAuthStateStore.create s now0 tok customer provider).2
            now1 (OAuthStateStore.create s now0 tok customer provider).1 =
          (none, derase (OAuthStateStore.create s now0 tok customer provider).2 tok) := by
      rw [hcreate.1]
      simp only [OAuthStateStore.consume, hcreate.2]
      simp [h]
    refine ⟨by rw [hc], ?_⟩
    rw [hc]
    exact dlookup_derase_self _ _

/-- Witness for `consume_single_use` at a concrete store and clock. -/
theorem consume_single_use_witness :
    (OAuthStateStore.consume (OAuthStateStore.create [] 0 "t" "cust" "notion").2
        600 (OAuthStateStore.create [] 0 "t" "cust" "notion").1).1 =
      some ⟨"cust", "notion", 0⟩ ∧
    (OAuthStateStore.consume (OAuthStateStore.create [] 0 "t2" "cust" "notion").2
        601 (OAuthStateStore.create [] 0 "t2" "cust" "notion").1).1 = none := by
  constructor
  · exact ((consume_single_use [] 0 600 "t" "cust" "notion").1 (by decide)).1
  · exact ((consume_single_use [] 0 601 "t2" "cust" "notion").2 (by decide)).1

/-! ## Provider Catalog (`oauth_registry.py`) -/

/-- The frozen `OAuthProvider` dataclass of `oauth_registry.py`.
`extra_auth_params` is a Python dict, modelled as an insertion-ordered
association list. -/
structure OAuthProvider where
  provider_id : String
  display_name : String
  icon : String
  category : String
  description : String
  auth_url : String := ""
  token_url : String := ""
  scopes : List String := []
  client_id_env : String := ""
  client_secret_env : String := ""
  userinfo_url : String := ""
  supports_sync : Bool := false
  extra_auth_params : List (String × String) := []
deriving DecidableEq, Repr

def provider_notion : OAuthProvider where
  provider_id := "notion"
  display_name := "Notion"
  icon := "https://cdn.simpleicons.org/notion/000000"
  category := "Productivity"
  description := "Connect your Notion workspace to sync pages and databases."
  auth_url := "https://api.notion.com/v1/oauth/authorize"
  token_url := "https://api.notion.com/v1/oauth/token"
  scopes := []
  client_id_env := "NOTION_OAUTH_CLIENT_ID"
  client_secret_env := "NOTION_OAUTH_CLIENT_SECRET"
  userinfo_url := "https://api.notion.com/v1/users/me"
  supports_sync := true
  extra_auth_params := [("owner", "user")]

def provider_google_drive : OAuthProvider where
  provider_id := "google_drive"
  display_name := "Google Drive"
  icon := "https://cdn.simpleicons.org/googledrive"
  category := "Productivity"
  description := "Access and sync files from Google Drive."
  auth_url := "https://accounts.google.com/o/oauth2/v2/auth"
  token_url := "https://oauth2.googleapis.com/token"
  scopes := ["https://www.googleapis.com/auth/drive.readonly", "openid", "email", "profile"]
  client_id_env := "GOOGLE_OAUTH_CLIENT_ID"
  client_secret_env := "GOOGLE_OAUTH_CLIENT_SECRET"
  userinfo_url := "https://www.googleapis.com/oauth2/v2/userinfo"
  supports_sync := false
  extra_auth_params := [("access_type", "offline"), ("prompt", "consent")]

def provider_google_docs : OAuthProvider where
  provider_id := "google_docs"
  display_name := "Google Docs"
  icon := "https://cdn.simpleicons.org/googledocs"
  category := "Productivity"
  description := "Import content from Google Docs."
  auth_url := "https://accounts.google.com/o/oauth2/v2/auth"
  token_url := "https://oauth2.googleapis.com/token"
  scopes := ["https://www.googleapis.com/auth/documents.readonly", "openid", "email", "profile"]
  client_id_env := "GOOGLE_OAUTH_CLIENT_ID"
  client_secret_env := "GOOGLE_OAUTH_CLIENT_SECRET"
  userinfo_url := "https://www.googleapis.com/oauth2/v2/userinfo"
  supports_sync := false
  extra_auth_params := [("access_type", "offline"), ("prompt", "consent")]

def provider_onedrive : OAuthProvider where
  provider_id := "onedrive"
  display_name := "OneDrive"
  icon := "https://cdn.simpleicons.org/microsoftonedrive"
  category := "Productivity"
  description := "Sync files from Microsoft OneDrive."
  auth_url := "https://login.microsoftonline.com/common/oauth2/v2.0/authorize"
  token_url := "https://login.microsoftonline.com/common/oauth2/v2.0/token"
  scopes := ["Files.Read.All", "User.Read", "offline_access"]
  client_id_env := "MICROSOFT_OAUTH_CLIENT_ID"
  client_secret_env := "MICROSOFT_OAUTH_CLIENT_SECRET"
  userinfo_url := "https://graph.microsoft.com/v1.0/me"
  supports_sync := false
  extra_auth_params := []

def provider_dropbox : OAuthProvider where
  provider_id := "dropbox"
  display_name := "Dropbox"
  icon := "https://cdn.simpleicons.org/dropbox"
  category := "Productivity"
  description := "Access files stored in Dropbox."
  auth_url := "https://www.dropbox.com/oauth2/authorize"
  token_url := "https://api.dropboxapi.com/oauth2/token"
  scopes := []
  client_id_env := "DROPBOX_OAUTH_CLIENT_ID"
  client_secret_env := "DROPBOX_OAUTH_CLIENT_SECRET"
  userinfo_url := "https://api.dropboxapi.com/2/users/get_current_account"
  supports_sync := false
  extra_auth_params := [("token_access_type", "offline")]

def provider_box : OAuthProvider where
  provider_id := "box"
  display_name := "Box"
  icon := "https://cdn.simpleicons.org/box"
  category := "Productivity"
  description := "Sync content from Box cloud storage."
  auth_url := "https://account.box.com/api/oauth2/authorize"
  token_url := "https://api.box.com/oauth2/token"
  scopes := []
  client_id_env := "BOX_OAUTH_CLIENT_ID"
  client_secret_env := "BOX_OAUTH_CLIENT_SECRET"
  userinfo_url := "https://api.box.com/2.0/users/me"
  supports_sync := false
  extra_auth_params := []

def provider_airtable : OAuthProvider where
  provider_id := "airtable"
  display_name := "Airtable"
  icon := "https://cdn.simpleicons.org/airtable"
  category := "Productivity"
  description := "Connect Airtable bases and tables."
  auth_url := "https://airtable.com/oauth2/v1/authorize"
  token_url := "https://airtable.com/oauth2/v1/token"
  scopes := ["data.records:read", "schema.bases:read"]
  client_id_env := "AIRTABLE_OAUTH_CLIENT_ID"
  client_secret_env := "AIRTABLE_OAUTH_CLIENT_SECRET"
  userinfo_url := "https://api.airtable.com/v0/meta/whoami"
  supports_sync := false
  extra_auth_params := []

def provider_coda : OAuthProvider where
  provider_id := "coda"
  display_name := "Coda"
  icon := "https://cdn.simpleicons.org/coda"
  category := "Productivity"
  description := "Import docs from Coda."
  auth_url := "https://coda.io/oauth/authorize"
  token_url := "https://coda.io/oauth/token"
  scopes := ["doc:read"]
  client_id_env := "CODA_OAUTH_CLIENT_ID"
  client_secret_env := "CODA_OAUTH_CLIENT_SECRET"
  userinfo_url := "https://coda.io/apis/v1/whoami"
  supports_sync := false
  extra_auth_params := []

def provider_slack : OAuthProvider where
  provider_id := "slack"
  display_name := "Slack"
  icon := "https://cdn.simpleicons.org/slack"
  category := "Communication"
  description := "Connect Slack to index channel messages and threads."
  auth_url := "https://slack.com/oauth/v2/authorize"
  token_url := "https://slack.com/api/oauth.v2.access"
  scopes := ["channels:read", "channels:history", "users:read"]
  client_id_env := "SLACK_OAUTH_CLIENT_ID"
  client_secret_env := "SLACK_OAUTH_CLIENT_SECRET"
  userinfo_url := "https://slack.com/api/auth.test"
  supports_sync := false
  extra_auth_params := []

def provider_microsoft_teams : OAuthProvider where
  provider_id := "microsoft_teams"
  display_name := "Microsoft Teams"
  icon := "https://cdn.simpleicons.org/microsoftteams"
  category := "Communication"
  description := "Sync conversations from Microsoft Teams."
  auth_url := "https://login.microsoftonline.com/common/oauth2/v2.0/authorize"
  token_url := "https://login.microsoftonline.com/common/oauth2/v2.0/token"
  scopes := ["Chat.Read", "User.Read", "offline_access"]
  client_id_env := "MICROSOFT_OAUTH_CLIENT_ID"
  client_secret_env := "MICROSOFT_OAUTH_CLIENT_SECRET"
  userinfo_url := "https://graph.microsoft.com/v1.0/me"
  supports_sync := false
  extra_auth_params := []

def provider_gmail : OAuthProvider where
  provider_id := "gmail"
  display_name := "Gmail"
  icon := "https://cdn.simpleicons.org/gmail"
  category := "Communication"
  description := "Index emails from Gmail."
  auth_url := "https://accounts.google.com/o/oauth2/v2/auth"
  token_url := "https://oauth2.googleapis.com/token"
  scopes := ["https://www.googleapis.com/auth/gmail.readonly", "openid", "email", "profile"]
  client_id_env := "GOOGLE_OAUTH_CLIENT_ID"
  client_secret_env := "GOOGLE_OAUTH_CLIENT_SECRET"
  userinfo_url := "https://www.googleapis.com/oauth2/v2/userinfo"
  supports_sync := false
  extra_auth_params := [("access_type", "offline"), ("prompt", "consent")]

def provider_outlook : OAuthProvider where
  provider_id := "outlook"
  display_name := "Outlook"
  icon := "https://cdn.simpleicons.org/microsoftoutlook"
  category := "Communication"
  description := "Sync emails from Outlook."
  auth_url := "https://login.microsoftonline.com/common/oauth2/v2.0/authorize"
  token_url := "https://login.microsoftonline.com/common/oauth2/v2.0/token"
  scopes := ["Mail.Read", "User.Read", "offline_access"]
  client_id_env := "MICROSOFT_OAUTH_CLIENT_ID"
  client_secret_env := "MICROSOFT_OAUTH_CLIENT_SECRET"
  userinfo_url := "https://graph.microsoft.com/v1.0/me"
  supports_sync := false
  extra_auth_params := []

def provider_discord : OAuthProvider where
  provider_id := "discord"
  display_name := "Discord"
  icon := "https://cdn.simpleicons.org/discord"
  category := "Communication"
  description := "Connect Discord servers and channels."
  auth_url := "https://discord.com/oauth2/authorize"
  token_url := "https://discord.com/api/oauth2/token"
  scopes := ["identify", "guilds"]
  client_id_env := "DISCORD_OAUTH_CLIENT_ID"
  client_secret_env := "DISCORD_OAUTH_CLIENT_SECRET"
  userinfo_url := "https://discord.com/api/users/@me"
  supports_sync := false
  extra_auth_params := []

def provider_zoom : OAuthProvider where
  provider_id := "zoom"
  display_name := "Zoom"
  icon := "https://cdn.simpleicons.org/zoom"
  category := "Communication"
  description := "Sync Zoom meeting transcripts."
  auth_url := "https://zoom.us/oauth/authorize"
  token_url := "https://zoom.us/oauth/token"
  scopes := []
  client_id_env := "ZOOM_OAUTH_CLIENT_ID"
  client_secret_env := "ZOOM_OAUTH_CLIENT_SECRET"
  userinfo_url := "https://api.zoom.us/v2/users/me"
  supports_sync := false
  extra_auth_params := []

def provider_jira : OAuthProvider where
  provider_id := "jira"
  display_name := "Jira"
  icon := "https://cdn.simpleicons.org/jira"
  category := "Project Management"
  description := "Connect Jira to sync issues and projects."
  auth_url := "https://auth.atlassian.com/authorize"
  token_url := "https://auth.atlassian.com/oauth/token"
  scopes := ["read:jira-work", "read:jira-user", "offline_access"]
  client_id_env := "ATLASSIAN_OAUTH_CLIENT_ID"
  client_secret_env := "ATLASSIAN_OAUTH_CLIENT_SECRET"
  userinfo_url := "https://api.atlassian.com/me"
  supports_sync := false
  extra_auth_params := [("audience", "api.atlassian.com"), ("prompt", "consent")]

def provider_confluence : OAuthProvider where
  provider_id := "confluence"
  display_name := "Confluence"
  icon := "https://cdn.simpleicons.org/confluence"
  category := "Project Management"
  description := "Sync Confluence pages and spaces."
  auth_url := "https://auth.atlassian.com/authorize"
  token_url := "https://auth.atlassian.com/oauth/token"
  scopes := ["read:confluence-content.all", "read:confluence-user", "offline_access"]
  client_id_env := "ATLASSIAN_OAUTH_CLIENT_ID"
  client_secret_env := "ATLASSIAN_OAUTH_CLIENT_SECRET"
  userinfo_url := "https://api.atlassian.com/me"
  supports_sync := false
  extra_auth_params := [("audience", "api.atlassian.com"), ("prompt", "consent")]

def provider_asana : OAuthProvider where
  provider_id := "asana"
  display_name := "Asana"
  icon := "https://cdn.simpleicons.org/asana"
  category := "Project Management"
  description := "Import tasks and projects from Asana."
  auth_url := "https://app.asana.com/-/oauth_authorize"
  token_url := "https://app.asana.com/-/oauth_token"
  scopes := []
  client_id_env := "ASANA_OAUTH_CLIENT_ID"
  client_secret_env := "ASANA_OAUTH_CLIENT_SECRET"
  userinfo_url := "https://app.asana.com/api/1.0/users/me"
  supports_sync := false
  extra_auth_params := []

def provider_trello : OAuthProvider where
  provider_id := "trello"
  display_name := "Trello"
  icon := "https://cdn.simpleicons.org/trello"
  category := "Project Management"
  description := "Sync Trello boards and cards."
  auth_url := "https://trello.com/1/authorize"
  token_url := "https://trello.com/1/OAuthGetAccessToken"
  scopes := ["read"]
  client_id_env := "TRELLO_OAUTH_CLIENT_ID"
  client_secret_env := "TRELLO_OAUTH_CLIENT_SECRET"
  userinfo_url := ""
  supports_sync := false
  extra_auth_params := []

def provider_linear : OAuthProvider where
  provider_id := "linear"
  display_name := "Linear"
  icon := "https://cdn.simpleicons.org/linear"
  category := "Project Management"
  description := "Connect Linear to sync issues and projects."
  auth_url := "https://linear.app/oauth/authorize"
  token_url := "https://api.linear.app/oauth/token"
  scopes := ["read"]
  client_id_env := "LINEAR_OAUTH_CLIENT_ID"
  client_secret_env := "LINEAR_OAUTH_CLIENT_SECRET"
  userinfo_url := ""
  supports_sync := false
  extra_auth_params := []

def provider_monday : OAuthProvider where
  provider_id := "monday"
  display_name := "Monday.com"
  icon := "https://cdn.simpleicons.org/mondaydotcom"
  category := "Project Management"
  description := "Sync boards and items from Monday.com."
  auth_url := "https://auth.monday.com/oauth2/authorize"
  token_url := "https://auth.monday.com/oauth2/token"
  scopes := []
  client_id_env := "MONDAY_OAUTH_CLIENT_ID"
  client_secret_env := "MONDAY_OAUTH_CLIENT_SECRET"
  userinfo_url := ""
  supports_sync := false
  extra_auth_params := []

def provider_clickup : OAuthProvider where
  provider_id := "clickup"
  display_name := "ClickUp"
  icon := "https://cdn.simpleicons.org/clickup"
  category := "Project Management"
  description := "Import tasks and docs from ClickUp."
  auth_url := "https://app.clickup.com/api"
  token_url := "https://api.clickup.com/api/v2/oauth/token"
  scopes := []
  client_id_env := "CLICKUP_OAUTH_CLIENT_ID"
  client_secret_env := "CLICKUP_OAUTH_CLIENT_SECRET"
  userinfo_url := ""
  supports_sync := false
  extra_auth_params := []

def provider_github : OAuthProvider where
  provider_id := "github"
  display_name := "GitHub"
  icon := "https://cdn.simpleicons.org/github/000000"
  category := "Developer Tools"
  description := "Index repositories and documentation from GitHub."
  auth_url := "https://github.com/login/oauth/authorize"
  token_url := "https://github.com/login/oauth/access_token"
  scopes := ["read:user", "repo"]
  client_id_env := "GITHUB_OAUTH_CLIENT_ID"
  client_secret_env := "GITHUB_OAUTH_CLIENT_SECRET"
  userinfo_url := "https://api.github.com/user"
  supports_sync := false
  extra_auth_params := []

def provider_gitlab : OAuthProvider where
  provider_id := "gitlab"
  display_name := "GitLab"
  icon := "https://cdn.simpleicons.org/gitlab"
  category := "Developer Tools"
  description := "Sync repositories from GitLab."
  auth_url := "https://gitlab.com/oauth/authorize"
  token_url := "https://gitlab.com/oauth/token"
  scopes := ["read_user", "read_api"]
  client_id_env := "GITLAB_OAUTH_CLIENT_ID"
  client_secret_env := "GITLAB_OAUTH_CLIENT_SECRET"
  userinfo_url := "https://gitlab.com/api/v4/user"
  supports_sync := false
  extra_auth_params := []

def provider_bitbucket : OAuthProvider where
  provider_id := "bitbucket"
  display_name := "Bitbucket"
  icon := "https://cdn.simpleicons.org/bitbucket"
  category := "Developer Tools"
  description := "Connect Bitbucket repositories."
  auth_url := "https://bitbucket.org/site/oauth2/authorize"
  token_url := "https://bitbucket.org/site/oauth2/access_token"
  scopes := ["repository", "account"]
  client_id_env := "BITBUCKET_OAUTH_CLIENT_ID"
  client_secret_env := "BITBUCKET_OAUTH_CLIENT_SECRET"
  userinfo_url := "https://api.bitbucket.org/2.0/user"
  supports_sync := false
  extra_auth_params := []

def provider_figma : OAuthProvider where
  provider_id := "figma"
  display_name := "Figma"
  icon := "https://cdn.simpleicons.org/figma"
  category := "Developer Tools"
  description := "Access Figma files and design data."
  auth_url := "https://www.figma.com/oauth"
  token_url := "https://www.figma.com/api/oauth/token"
  scopes := ["file_read"]
  client_id_env := "FIGMA_OAUTH_CLIENT_ID"
  client_secret_env := "FIGMA_OAUTH_CLIENT_SECRET"
  userinfo_url := "https://api.figma.com/v1/me"
  supports_sync := false
  extra_auth_params := []

def provider_salesforce : OAuthProvider where
  provider_id := "salesforce"
  display_name := "Salesforce"
  icon := "https://cdn.simpleicons.org/salesforce"
  category := "CRM & Sales"
  description := "Sync contacts, leads, and knowledge from Salesforce."
  auth_url := "https://login.salesforce.com/services/oauth2/authorize"
  token_url := "https://login.salesforce.com/services/oauth2/token"
  scopes := ["api", "refresh_token"]
  client_id_env := "SALESFORCE_OAUTH_CLIENT_ID"
  client_secret_env := "SALESFORCE_OAUTH_CLIENT_SECRET"
  userinfo_url := "https://login.salesforce.com/services/oauth2/userinfo"
  supports_sync := false
  extra_auth_params := []

def provider_hubspot : OAuthProvider where
  provider_id := "hubspot"
  display_name := "HubSpot"
  icon := "https://cdn.simpleicons.org/hubspot"
  category := "CRM & Sales"
  description := "Connect HubSpot CRM data."
  auth_url := "https://app.hubspot.com/oauth/authorize"
  token_url := "https://api.hubapi.com/oauth/v1/token"
  scopes := ["crm.objects.contacts.read"]
  client_id_env := "HUBSPOT_OAUTH_CLIENT_ID"
  client_secret_env := "HUBSPOT_OAUTH_CLIENT_SECRET"
  userinfo_url := "https://api.hubapi.com/oauth/v1/access-tokens/"
  supports_sync := false
  extra_auth_params := []

def provider_pipedrive : OAuthProvider where
  provider_id := "pipedrive"
  display_name := "Pipedrive"
  icon := "https://cdn.simpleicons.org/pipedrive"
  category := "CRM & Sales"
  description := "Sync deals and contacts from Pipedrive."
  auth_url := "https://oauth.pipedrive.com/oauth/authorize"
  token_url := "https://oauth.pipedrive.com/oauth/token"
  scopes := []
  client_id_env := "PIPEDRIVE_OAUTH_CLIENT_ID"
  client_secret_env := "PIPEDRIVE_OAUTH_CLIENT_SECRET"
  userinfo_url := "https://api.pipedrive.com/v1/users/me"
  supports_sync := false
  extra_auth_params := []

def provider_zoho_crm : OAuthProvider where
  provider_id := "zoho_crm"
  display_name := "Zoho CRM"
  icon := "https://cdn.simpleicons.org/zoho"
  category := "CRM & Sales"
  description := "Connect your Zoho CRM account."
  auth_url := "https://accounts.zoho.com/oauth/v2/auth"
  token_url := "https://accounts.zoho.com/oauth/v2/token"
  scopes := ["ZohoCRM.modules.ALL"]
  client_id_env := "ZOHO_OAUTH_CLIENT_ID"
  client_secret_env := "ZOHO_OAUTH_CLIENT_SECRET"
  userinfo_url := "https://www.zohoapis.com/crm/v2/users?type=CurrentUser"
  supports_sync := false
  extra_auth_params := []

def provider_zendesk : OAuthProvider where
  provider_id := "zendesk"
  display_name := "Zendesk"
  icon := "https://cdn.simpleicons.org/zendesk"
  category := "Support"
  description := "Sync Zendesk tickets and help center articles."
  auth_url := "https://d3v-yoursubdomain.zendesk.com/oauth/authorizations/new"
  token_url := "https://d3v-yoursubdomain.zendesk.com/oauth/tokens"
  scopes := ["read"]
  client_id_env := "ZENDESK_OAUTH_CLIENT_ID"
  client_secret_env := "ZENDESK_OAUTH_CLIENT_SECRET"
  userinfo_url := ""
  supports_sync := false
  extra_auth_params := []

def provider_intercom : OAuthProvider where
  provider_id := "intercom"
  display_name := "Intercom"
  icon := "https://cdn.simpleicons.org/intercom"
  category := "Support"
  description := "Connect Intercom conversations and articles."
  auth_url := "https://app.intercom.com/oauth"
  token_url := "https://api.intercom.io/auth/eagle/token"
  scopes := []
  client_id_env := "INTERCOM_OAUTH_CLIENT_ID"
  client_secret_env := "INTERCOM_OAUTH_CLIENT_SECRET"
  userinfo_url := "https://api.intercom.io/me"
  supports_sync := false
  extra_auth_params := []

def provider_freshdesk : OAuthProvider where
  provider_id := "freshdesk"
  display_name := "Freshdesk"
  icon := "https://cdn.simpleicons.org/freshdesk"
  category := "Support"
  description := "Sync Freshdesk tickets and solutions."
  auth_url := ""
  token_url := ""
  scopes := []
  client_id_env := "FRESHDESK_OAUTH_CLIENT_ID"
  client_secret_env := "FRESHDESK_OAUTH_CLIENT_SECRET"
  userinfo_url := ""
  supports_sync := false
  extra_auth_params := []

def provider_helpscout : OAuthProvider where
  provider_id := "helpscout"
  display_name := "Help Scout"
  icon := "https://cdn.simpleicons.org/helpscout"
  category := "Support"
  description := "Connect Help Scout mailboxes and docs."
  auth_url := "https://secure.helpscout.net/authentication/authorizeClientApplication"
  token_url := "https://api.helpscout.net/v2/oauth2/token"
  scopes := []
  client_id_env := "HELPSCOUT_OAUTH_CLIENT_ID"
  client_secret_env := "HELPSCOUT_OAUTH_CLIENT_SECRET"
  userinfo_url := ""
  supports_sync := false
  extra_auth_params := []

def provider_instagram : OAuthProvider where
  provider_id := "instagram"
  display_name := "Instagram"
  icon := "https://cdn.simpleicons.org/instagram"
  category := "Social Media"
  description := "Connect your Instagram business account."
  auth_url := "https://api.instagram.com/oauth/authorize"
  token_url := "https://api.instagram.com/oauth/access_token"
  scopes := ["user_profile", "user_media"]
  client_id_env := "INSTAGRAM_OAUTH_CLIENT_ID"
  client_secret_env := "INSTAGRAM_OAUTH_CLIENT_SECRET"
  userinfo_url := ""
  supports_sync := false
  extra_auth_params := []

def provider_facebook : OAuthProvider where
  provider_id := "facebook"
  display_name := "Facebook"
  icon := "https://cdn.simpleicons.org/facebook"
  category := "Social Media"
  description := "Connect Facebook pages and data."
  auth_url := "https://www.facebook.com/v18.0/dialog/oauth"
  token_url := "https://graph.facebook.com/v18.0/oauth/access_token"
  scopes := ["pages_read_engagement", "public_profile"]
  client_id_env := "FACEBOOK_OAUTH_CLIENT_ID"
  client_secret_env := "FACEBOOK_OAUTH_CLIENT_SECRET"
  userinfo_url := "https://graph.facebook.com/me?fields=id,name,email"
  supports_sync := false
  extra_auth_params := []

def provider_twitter : OAuthProvider where
  provider_id := "twitter"
  display_name := "Twitter / X"
  icon := "https://cdn.simpleicons.org/x/000000"
  category := "Social Media"
  description := "Connect your X (Twitter) account."
  auth_url := "https://twitter.com/i/oauth2/authorize"
  token_url := "https://api.twitter.com/2/oauth2/token"
  scopes := ["tweet.read", "users.read", "offline.access"]
  client_id_env := "TWITTER_OAUTH_CLIENT_ID"
  client_secret_env := "TWITTER_OAUTH_CLIENT_SECRET"
  userinfo_url := "https://api.twitter.com/2/users/me"
  supports_sync := false
  extra_auth_params := []

def provider_linkedin : OAuthProvider where
  provider_id := "linkedin"
  display_name := "LinkedIn"
  icon := "https://cdn.simpleicons.org/linkedin"
  category := "Social Media"
  description := "Connect your LinkedIn profile."
  auth_url := "https://www.linkedin.com/oauth/v2/authorization"
  token_url := "https://www.linkedin.com/oauth/v2/accessToken"
  scopes := ["openid", "profile", "email"]
  client_id_env := "LINKEDIN_OAUTH_CLIENT_ID"
  client_secret_env := "LINKEDIN_OAUTH_CLIENT_SECRET"
  userinfo_url := "https://api.linkedin.com/v2/userinfo"
  supports_sync := false
  extra_auth_params := []

def provider_shopify : OAuthProvider where
  provider_id := "shopify"
  display_name := "Shopify"
  icon := "https://cdn.simpleicons.org/shopify"
  category := "Other"
  description := "Sync product and store data from Shopify."
  auth_url := "https://\x7bshop\x7d.myshopify.com/admin/oauth/authorize"
  token_url := "https://\x7bshop\x7d.myshopify.com/admin/oauth/access_token"
  scopes := ["read_products", "read_content"]
  client_id_env := "SHOPIFY_OAUTH_CLIENT_ID"
  client_secret_env := "SHOPIFY_OAUTH_CLIENT_SECRET"
  userinfo_url := ""
  supports_sync := false
  extra_auth_params := []

def provider_stripe : OAuthProvider where
  provider_id := "stripe"
  display_name := "Stripe"
  icon := "https://cdn.simpleicons.org/stripe"
  category := "Other"
  description := "Connect Stripe for payment data."
  auth_url := "https://connect.stripe.com/oauth/authorize"
  token_url := "https://connect.stripe.com/oauth/token"
  scopes := ["read_only"]
  client_id_env := "STRIPE_OAUTH_CLIENT_ID"
  client_secret_env := "STRIPE_OAUTH_CLIENT_SECRET"
  userinfo_url := ""
  supports_sync := false
  extra_auth_params := []

def provider_custom : OAuthProvider where
  provider_id := "custom"
  display_name := "Custom"
  icon := ""
  category := "Other"
  description := "Add a custom integration with manual credentials."
  auth_url := ""
  token_url := ""
  scopes := []
  client_id_env := ""
  client_secret_env := ""
  userinfo_url := ""
  supports_sync := false
  extra_auth_params := []

/-- The `_PROVIDERS` list from `oauth_registry.py`, in source order. -/
def _PROVIDERS : List OAuthProvider :=
  [provider_notion,
   provider_google_drive,
   provider_google_docs,
   provider_onedrive,
   provider_dropbox,
   provider_box,
   provider_airtable,
   provider_coda,
   provider_slack,
   provider_microsoft_teams,
   provider_gmail,
   provider_outlook,
   provider_discord,
   provider_zoom,
   provider_jira,
   provider_confluence,
   provider_asana,
   provider_trello,
   provider_linear,
   provider_monday,
   provider_clickup,
   provider_github,
   provider_gitlab,
   provider_bitbucket,
   provider_figma,
   provider_salesforce,
   provider_hubspot,
   provider_pipedrive,
   provider_zoho_crm,
   provider_zendesk,
   provider_intercom,
   provider_freshdesk,
   provider_helpscout,
   provider_instagram,
   provider_facebook,
   provider_twitter,
   provider_linkedin,
   provider_shopify,
   provider_stripe,
   provider_custom]
/-- `get_provider`: lookup in the registry dict keyed by `provider_id`. -/
def get_provider (provider_id : String) : Option OAuthProvider :=
  _PROVIDERS.find? (fun p => p.provider_id == provider_id)

/-- `has_oauth_support`: both OAuth endpoints non-empty (Python truthiness). -/
def has_oauth_support (provider : OAuthProvider) : Bool :=
  provider.auth_url != "" && provider.token_url != ""

/-! ## Connector entity (`models/connector.py`) -/

/-- The `Connector` SQLAlchemy model.  Datetimes are an `Int` clock; the
serialized credential JSON blob is held as its parsed mapping (the source
round-trips it through `json.dumps`/`json.loads`). -/
structure Connector where
  customer_id : String
  app_name : String
  display_name : String
  credentials : List (String × String)
  is_active : Bool
  auth_method : String
  connection_status : String
  status_message : Option String := none
  external_account_id : Option String := none
  external_account_name : Option String := none
  token_expires_at : Option Int := none
  last_health_check_at : Option Int := none
  last_synced_at : Option Int := none
  created_at : Int := 0
  updated_at : Int := 0
deriving DecidableEq, Repr

/-! ## Health probe (`oauth_service.py`, `check_connection_health`) -/

/-- Outcome of the `fetch_user_info` HTTP call inside
`check_connection_health`: success, an `httpx.HTTPStatusError` carrying the
response status, or any other exception carrying its rendered message. -/
inductive FetchOutcome where
  | ok
  | httpError (status : Nat)
  | failure (cause : String)
deriving DecidableEq, Repr

/-- `OAuthService.check_connection_health`: classify the probe outcome into
`(is_healthy, message)`.  The function is total — every exception from the
userinfo fetch is caught and converted into a message, never re-raised. -/
def check_connection_health (provider : OAuthProvider)
    (outcome : FetchOutcome) : Bool × String :=
  if provider.userinfo_url = "" then (true, "No health check endpoint")
  else
    match outcome with
    | .ok => (true, "Connected")
    | .httpError status =>
        if status = 401 then (false, "Token expired or revoked")
        else (false, "HTTP " ++ toString status)
    | .failure cause => (false, cause)

/-! ## Health Sweeper (`health_check.py`, one connector of one cycle) -/

/-- Outcome of the `refresh_access_token` call inside the sweep: a token
response mapping on HTTP success, or `failure` when the call raised. -/
inductive RefreshOutcome where
  | success (new_tokens : List (String × String))
  | failure
deriving DecidableEq, Repr

/-- One connector's processing inside the `health_check_loop` cycle body.
`provider` is the result of `get_provider(connector.app_name)`, `healthy` and
`message` the result of `check_connection_health`, `refresh` the outcome of
`refresh_access_token` (consulted only when the code actually calls it), and
`now` the value of `datetime.utcnow()`.  Returns the updated connector and
how many refresh calls were issued. -/
def health_check_step (provider : Option OAuthProvider) (healthy : Bool)
    (message : String) (refresh : RefreshOutcome) (now : Int)
    (connector : Connector) : Connector × Nat :=
  match provider with
  | none => (connector, 0)
  | some p =>
      if p.userinfo_url = "" then (connector, 0)
      else
        let creds := connector.credentials
        let access_token := (dlookup creds "access_token").getD ""
        if access_token = "" then (connector, 0)
        else if healthy then
          ({ connector with
              connection_status := "connected"
              status_message := none
              last_health_check_at := some now }, 0)
        else
          let refresh_token := (dlookup creds "refresh_token").getD ""
          if refresh_token ≠ "" then
            match refresh with
            | .success new_tokens =>
                let creds1 := dinsert creds "access_token"
                  ((dlookup new_tokens "access_token").getD access_token)
                let creds2 :=
                  match dlookup new_tokens "refresh_token" with
                  | some nrt => dinsert creds1 "refresh_token" nrt
                  | none => creds1
                ({ connector with
                    credentials := creds2
                    connection_status := "connected"
                    status_message := none
                    last_health_check_at := some now }, 1)
            | .failure =>
                ({ connector with
                    connection_status := "error"
                    status_message := some message
                    last_health_check_at := some now }, 1)
          else
            ({ connector with
                connection_status := "error"
                status_message := some message
                last_health_check_at := some now }, 0)

/-! ## Disconnect (`api/connectors.py`, `disconnect_connector`) -/

/-- `disconnect_connector`: wipe credentials (`json.dumps({})`, i.e. the empty
bundle), set status to `disconnected` with a message, deactivate, and touch
`updated_at`. -/
def disconnect_connector (now : Int) (connector : Connector) : Connector :=
  { connector with
      credentials := []
      connection_status := "disconnected"
      status_message := some "Disconnected by user"
      is_active := false
      updated_at := now }

/-! ## API-key masking (`api/client.py`, `get_api_keys`) -/

/-- The masking expression of `get_api_keys`:
`key[:7] + "..." + key[-4:] if len(key) > 11 else key[:4] + "..."`. -/
def mask_api_key (key : String) : String :=
  if key.length > 11 then key.take 7 ++ "..." ++ key.takeRight 4
  else key.take 4 ++ "..."

/-! ## Credential-connector creation (`api/connectors.py`, `create_connector`) -/

/-- The `CreateConnectorRequest` body: `credentials` defaults to an empty
mapping. -/
structure CreateConnectorRequest where
  app_name : String
  display_name : Option String := none
  credentials : List (String × String) := []
deriving DecidableEq, Repr

/-- Python `str.lower()` (char-wise, as for the ASCII app names used here). -/
def pyLower (s : String) : String :=
  ⟨s.data.map Char.toLower⟩

/-- Helper for `pyTitle`: Python `str.title()` uppercases each letter that
follows a non-letter and lowercases the rest. -/
def pyTitleAux : Bool → List Char → List Char
  | _, [] => []
  | prevAlpha, c :: rest =>
      if c.isAlpha then
        (if prevAlpha then c.toLower else c.toUpper) :: pyTitleAux true rest
      else c :: pyTitleAux false rest

/-- Python `str.title()`. -/
def pyTitle (s : String) : String :=
  ⟨pyTitleAux false s.data⟩

/-- `create_connector` (the credential path of `POST /client/connectors/`):
lowercase the app name, pick a display name (explicit name, else the
`username` credential, else the titled app name), and create the row with
`auth_method="credential"`, `connection_status="connected"`,
`is_active=True` — no validation of the credentials happens. -/
def create_connector (now : Int) (customer_id : String)
    (request : CreateConnectorRequest) : Connector :=
  let app_name := pyLower request.app_name
  let dn0 := request.display_name.getD ""
  let display_name :=
    if dn0 ≠ "" then dn0
    else
      let u := (dlookup request.credentials "username").getD ""
      if u ≠ "" then u else pyTitle app_name
  { customer_id := customer_id
    app_name := app_name
    display_name := display_name
    credentials := request.credentials
    is_active := true
    auth_method := "credential"
    connection_status := "connected"
    created_at := now
    updated_at := now }

/-! ## Notion sync (`services/notion_sync.py`, `sync_connector`) -/

/-- The `IngestionJob` row as far as the sync adapter manipulates it. -/
structure IngestionJob where
  customer_id : String
  source_type : String
  source_filename : String
  status : String
  chunks_created : Nat := 0
  error_message : Option String := none
  started_at : Option Int := none
  completed_at : Option Int := none
deriving DecidableEq, Repr

/-- Outcome of the network/ingestion portion of the sync (the Notion search,
page extraction and chunk processing): the number of chunks produced, or the
message of the exception that aborted it. -/
inductive SyncPhase where
  | success (chunks : Nat)
  | failure (message : String)
deriving DecidableEq, Repr

/-- The credential resolution at the top of `sync_connector`:
`creds.get("api_key") or creds.get("access_token", "")`. -/
def notion_api_key (creds : List (String × String)) : String :=
  match dlookup creds "api_key" with
  | some k => if k ≠ "" then k else (dlookup creds "access_token").getD ""
  | none => (dlookup creds "access_token").getD ""

/-- `NotionSyncService.sync_connector`, with the database modelled as the list
of `IngestionJob` rows.  When no usable key exists, the `ValueError` is raised
before any job row is created.  Otherwise a `processing` job is created and
then completed or failed according to `phase`; on failure the failed job is
committed and the exception re-raised (the `Except.error` result). -/
def sync_connector (now : Int) (connector : Connector)
    (jobs : List IngestionJob) (phase : SyncPhase) :
    Except String IngestionJob × List IngestionJob × Connector :=
  let api_key := notion_api_key connector.credentials
  if api_key = "" then
    (Except.error "Notion API key not configured", jobs, connector)
  else
    let job : IngestionJob := {
      customer_id := connector.customer_id
      source_type := "notion"
      source_filename := "Notion Sync — " ++ connector.display_name
      status := "processing"
      started_at := some now }
    match phase with
    | .success chunks =>
        let job := { job with
          status := "completed"
          chunks_created := chunks
          completed_at := some now }
        (Except.ok job, jobs ++ [job], { connector with last_synced_at := some now })
    | .failure msg =>
        let job := { job with
          status := "failed"
          error_message := some msg
          completed_at := some now }
        (Except.error msg, jobs ++ [job], connector)

/-! ## Python builtin parsers used inside the callback's try-block -/

/-- Value of a base-10 digit run. -/
def pyDigitsToNat (ds : List Char) : Nat :=
  ds.foldl (fun a c => 10 * a + (c.toNat - '0'.toNat)) 0

/-- Python `int(s)` in base 10: optional surrounding whitespace, an optional
sign, then a non-empty digit run; `none` models the `ValueError` any other
shape raises.  (Digit-group underscores are not modelled.) -/
def pyIntOfString (s : String) : Option Int :=
  let cs := ((s.data.dropWhile Char.isWhitespace).reverse.dropWhile
    Char.isWhitespace).reverse
  match cs with
  | '+' :: ds =>
      if !ds.isEmpty && ds.all Char.isDigit then some (pyDigitsToNat ds)
      else none
  | '-' :: ds =>
      if !ds.isEmpty && ds.all Char.isDigit then
        some (-(pyDigitsToNat ds : Int))
      else none
  | ds =>
      if !ds.isEmpty && ds.all Char.isDigit then some (pyDigitsToNat ds)
      else none

/-- Python `s.replace("urn:", "")`: drop every occurrence, scanning left to
right. -/
def removeURN : List Char → List Char
  | 'u' :: 'r' :: 'n' :: ':' :: rest => removeURN rest
  | c :: rest => c :: removeURN rest
  | [] => []

/-- Python `s.replace("uuid:", "")`. -/
def removeUUIDColon : List Char → List Char
  | 'u' :: 'u' :: 'i' :: 'd' :: ':' :: rest => removeUUIDColon rest
  | c :: rest => c :: removeUUIDColon rest
  | [] => []

/-- Python `s.strip("\x7b\x7d")`: brace characters removed from both ends. -/
def stripBraces (cs : List Char) : List Char :=
  ((cs.dropWhile (fun c => c == '\x7b' || c == '\x7d')).reverse.dropWhile
    (fun c => c == '\x7b' || c == '\x7d')).reverse

/-- Hexadecimal digit test, as `int(hex, 16)` accepts. -/
def pyHexDigit (c : Char) : Bool :=
  c.isDigit || ('a' ≤ c && c ≤ 'f') || ('A' ≤ c && c ≤ 'F')

/-- Whether `uuid.UUID(s)` succeeds: CPython removes the `urn:` and `uuid:`
substrings, strips surrounding braces, removes hyphens, and then requires
exactly 32 hexadecimal digits (`int(hex, 16)` over a length-32 string);
anything else raises `ValueError`.  (The exotic sign/underscore forms `int`
tolerates inside the hex digits are not modelled.) -/
def pyUUIDValid (s : String) : Bool :=
  let cs := removeUUIDColon (removeURN s.data)
  let cs := stripBraces cs
  let cs := cs.filter (fun c => c != '-')
  cs.length == 32 && cs.all pyHexDigit

/-! ## OAuth callback (`api/connectors.py`, `oauth_callback`) -/

/-- A JSON value as the userinfo endpoints return it, restricted to the
shapes the source actually dereferences: strings and nested objects.  A
non-string, non-object leaf never contributes a usable name in the source's
access patterns and is modelled by the empty-string/empty-object defaults. -/
inductive PyVal where
  | str (s : String)
  | dict (fields : List (String × PyVal))

/-- `extract_account_name` of `oauth_service.py`: scan the common identity
keys in order for a non-empty string value, then fall back to the Notion
`bot.owner.user` nesting, else return the empty string. -/
def extract_account_name (_provider : OAuthProvider)
    (userinfo : List (String × PyVal)) : String :=
  let keys := ["email", "mail", "userPrincipalName", "login", "username",
               "name", "display_name"]
  match keys.findSome? (fun k =>
      match dlookup userinfo k with
      | some (PyVal.str s) => if s ≠ "" then some s else none
      | _ => none) with
  | some s => s
  | none =>
      match dlookup userinfo "bot" with
      | some (PyVal.dict bot) =>
          let owner := match dlookup bot "owner" with
            | some (PyVal.dict o) => o
            | _ => []
          let user := match dlookup owner "user" with
            | some (PyVal.dict u) => u
            | _ => []
          let name := match dlookup user "name" with
            | some (PyVal.str s) => s
            | _ => ""
          if name ≠ "" then name
          else
            match dlookup user "person" with
            | some (PyVal.dict p) =>
                (match dlookup p "email" with
                 | some (PyVal.str s) => s
                 | _ => "")
            | _ => ""
      | _ => ""

/-- Python `s.rstrip("/")`. -/
def pyRstripSlash (s : String) : String :=
  ⟨(s.data.reverse.dropWhile (fun c => c == '/')).reverse⟩

/-- What the `oauth_callback` route produces: a browser redirect URL (every
path returns a `RedirectResponse`, never a raw API error), the connector row
committed on success (if any), and the state store after `consume`. -/
structure CallbackResult where
  redirect_url : String
  connector_created : Option Connector
  store : OAuthStateStore

/-- `oauth_callback`: the full route handler.  `exchange` is the outcome of
`exchange_code` (`none` when it raised), `identity` the outcome of
`fetch_user_info` (`none` when it raised — caught inside the handler, the
flow continues).  `client_admin_url` comes from settings; `now` is the clock
used for both `consume` and the connector timestamps.  The outer `except`
also catches the `ValueError` of `int(token_data["expires_in"])` and of
`uuid.UUID(entry.customer_id)` inside the try block, redirecting with
`oauth_error=<provider id>`; both are modelled (`pyIntOfString`,
`pyUUIDValid`).  The database commit is modelled as succeeding. -/
def oauth_callback (client_admin_url : String)
    (code state error : Option String)
    (store : OAuthStateStore) (now : Int)
    (exchange : Option (List (String × String)))
    (identity : Option (List (String × PyVal))) : CallbackResult :=
  let admin_url := pyRstripSlash client_admin_url
  if pyTruthy error then
    { redirect_url := admin_url ++ "/index.html?oauth_error=" ++ error.getD ""
      connector_created := none
      store := store }
  else if !pyTruthy state || !pyTruthy code then
    { redirect_url := admin_url ++ "/index.html?oauth_error=missing_params"
      connector_created := none
      store := store }
  else
    let consumed := OAuthStateStore.consume store now (state.getD "")
    match consumed.1 with
    | none =>
        { redirect_url := admin_url ++ "/index.html?oauth_error=invalid_state"
          connector_created := none
          store := consumed.2 }
    | some entry =>
        match get_provider entry.provider_id with
        | none =>
            { redirect_url := admin_url ++ "/index.html?oauth_error=unknown_provider"
              connector_created := none
              store := consumed.2 }
        | some provider =>
            match exchange with
            | none =>
                { redirect_url := admin_url ++ "/index.html?oauth_error=" ++ provider.provider_id
                  connector_created := none
                  store := consumed.2 }
            | some token_data =>
                let access_token := (dlookup token_data "access_token").getD ""
                let refresh_token := (dlookup token_data "refresh_token").getD ""
                let idpair :=
                  if provider.userinfo_url != "" && access_token != "" then
                    match identity with
                    | some userinfo =>
                        (extract_account_name provider userinfo,
                         match dlookup userinfo "id" with
                         | some (PyVal.str s) => s
                         | some (PyVal.dict _) => ""
                         | none =>
                             match dlookup userinfo "sub" with
                             | some (PyVal.str s) => s
                             | _ => "")
                    | none => ("", "")
                  else ("", "")
                let account_name := idpair.1
                let external_id := idpair.2
                let credentials := [("access_token", access_token)]
                let credentials :=
                  if refresh_token ≠ "" then
                    dinsert credentials "refresh_token" refresh_token
                  else credentials
                let credentials :=
                  ["token_type", "scope", "workspace_id", "workspace_name"].foldl
                    (fun acc k =>
                      match dlookup token_data k with
                      | some v => dinsert acc k v
                      | none => acc) credentials
                let finish : Option Int → CallbackResult :=
                  fun token_expires_at =>
                    if pyUUIDValid entry.customer_id then
                      let connector : Connector := {
                        customer_id := entry.customer_id
                        app_name := provider.provider_id
                        display_name :=
                          if account_name ≠ "" then account_name
                          else provider.display_name
                        credentials := credentials
                        is_active := true
                        auth_method := "oauth"
                        connection_status := "connected"
                        external_account_id :=
                          if external_id ≠ "" then some external_id else none
                        external_account_name :=
                          if account_name ≠ "" then some account_name else none
                        token_expires_at := token_expires_at
                        created_at := now
                        updated_at := now }
                      { redirect_url := admin_url ++ "/index.html?oauth_success="
                          ++ provider.provider_id
                        connector_created := some connector
                        store := consumed.2 }
                    else
                      { redirect_url := admin_url ++ "/index.html?oauth_error="
                          ++ provider.provider_id
                        connector_created := none
                        store := consumed.2 }
                match dlookup token_data "expires_in" with
                | some s =>
                    match pyIntOfString s with
                    | none =>
                        { redirect_url := admin_url ++ "/index.html?oauth_error="
                            ++ provider.provider_id
                          connector_created := none
                          store := consumed.2 }
                    | some e => finish (some (now + e))
                | none => finish none

/-! ## Authorization URL (`oauth_service.py`, `get_authorization_url`) -/

/-- The query-parameter dict literal of `get_authorization_url`, plus the
conditional `scope` entry (`" ".join(scopes)`, only when the scope list is
truthy). -/
def baseAuthParams (client_id callback_url state : String)
    (scopes : List String) : List (String × String) :=
  let params := [("client_id", client_id), ("redirect_uri", callback_url),
                 ("response_type", "code"), ("state", state)]
  if scopes ≠ [] then dinsert params "scope" (String.intercalate " " scopes)
  else params

/-- `get_authorization_url`, modelled at the level of the query-parameter
mapping handed to `httpx.URL` (the source then percent-encodes it into the
final URL string).  `env` models `os.getenv(·, "")`; `token` is the random
token `secrets.token_urlsafe(32)` drawn inside `state_store.create`.  Returns
the parameter mapping, the stored state token, and the updated state store. -/
def get_authorization_url (env : String → String) (provider : OAuthProvider)
    (customer_id callback_url token : String) (now : Int)
    (store : OAuthStateStore) :
    List (String × String) × String × OAuthStateStore :=
  let created := OAuthStateStore.create store now token customer_id
    provider.provider_id
  let client_id := env provider.client_id_env
  (dupdate (baseAuthParams client_id callback_url created.1 provider.scopes)
      provider.extra_auth_params,
   created.1, created.2)

/-! ## Claim theorems -/

/-- C2: in one sweep cycle, for a probed OAuth connector (known provider with
a userinfo endpoint and a non-empty stored access token): when the probe is
unhealthy and a refresh token is stored, exactly one refresh call is issued;
on refresh success the access token of the bundle becomes the newly issued
one (and the refresh token is overwritten when the response carries one), the
status becomes `connected` with the message cleared; on refresh failure, or
when no refresh token is stored, the status becomes `error` with the health
message and the credentials unchanged; and `last_health_check_at` is stamped
to `now` regardless of outcome. -/
theorem health_check_step_unhealthy_spec
    (p : OAuthProvider) (healthy : Bool) (message : String)
    (refresh : RefreshOutcome) (now : Int) (connector : Connector)
    (hu : p.userinfo_url ≠ "")
    (ha : (dlookup connector.credentials "access_token").getD "" ≠ "") :
    (healthy = false →
      (dlookup connector.credentials "refresh_token").getD "" ≠ "" →
      (health_check_step (some p) healthy message refresh now connector).2 = 1) ∧
    (∀ new_tokens new_at, healthy = false →
      (dlookup connector.credentials "refresh_token").getD "" ≠ "" →
      refresh = RefreshOutcome.success new_tokens →
      dlookup new_tokens "access_token" = some new_at →
      dlookup (health_check_step (some p) healthy message refresh now
          connector).1.credentials "access_token" = some new_at ∧
      (∀ new_rt, dlookup new_tokens "refresh_token" = some new_rt →
        dlookup (health_check_step (some p) healthy message refresh now
            connector).1.credentials "refresh_token" = some new_rt) ∧
      (health_check_step (some p) healthy message refresh now
          connector).1.connection_status = "connected" ∧
      (health_check_step (some p) healthy message refresh now
          connector).1.status_message = none) ∧
    (healthy = false →
      (((dlookup connector.credentials "refresh_token").getD "" ≠ "" ∧
          refresh = RefreshOutcome.failure) ∨
        (dlookup connector.credentials "refresh_token").getD "" = "") →
      (health_check_step (some p) healthy message refresh now
          connector).1.connection_status = "error" ∧
      (health_check_step (some p) healthy message refresh now
          connector).1.status_message = some message ∧
      (health_check_step (some p) healthy message refresh now
          connector).1.credentials = connector.credentials) ∧
    (health_check_step (some p) healthy message refresh now
        connector).1.last_health_check_at = some now := by
  have hne : ∀ (d : List (String × String)) (v : String),
      dlookup (dinsert d "refresh_token" v) "access_token" =
        dlookup d "access_token" :=
    fun d v => dlookup_dinsert_ne d "refresh_token" "access_token" v (by decide)
  refine ⟨?_, ?_, ?_, ?_⟩
  · rintro rfl hrt
    cases refresh <;> simp [health_check_step, hu, ha, hrt]
  · rintro new_tokens new_at rfl hrt rfl hat
    rcases hnt : dlookup new_tokens "refresh_token" with _ | nrt
    · refine ⟨?_, ?_, ?_, ?_⟩ <;>
        simp [health_check_step, hu, ha, hrt, hnt, hat, dlookup_dinsert_self]
    · refine ⟨?_, ?_, ?_, ?_⟩ <;>
        simp [health_check_step, hu, ha, hrt, hnt, hat, hne,
          dlookup_dinsert_self]
  · rintro rfl (⟨hrt, rfl⟩ | hrt) <;>
      simp [health_check_step, hu, ha, hrt]
  · cases healthy with
    | false =>
        by_cases hrt : (dlookup connector.credentials "refresh_token").getD "" = ""
        · simp [health_check_step, hu, ha, hrt]
        · cases refresh <;> simp [health_check_step, hu, ha, hrt]
    | true => simp [health_check_step, hu, ha]

/-- A concrete OAuth connector holding an access and a refresh token, used to
instantiate the sweep theorems. -/
def sweepConnector : Connector := {
  customer_id := "cust"
  app_name := "notion"
  display_name := "Notion"
  credentials := [("access_token", "old-at"), ("refresh_token", "r1")]
  is_active := true
  auth_method := "oauth"
  connection_status := "connected" }

/-- Witness for `health_check_step_unhealthy_spec` at a concrete connector. -/
theorem health_check_step_unhealthy_spec_witness :
    dlookup (health_check_step (some provider_notion) false
        "Token expired or revoked"
        (RefreshOutcome.success [("access_token", "new-at"), ("refresh_token", "r2")])
        5 sweepConnector).1.credentials "access_token" = some "new-at" ∧
    (health_check_step (some provider_notion) false "Token expired or revoked"
        (RefreshOutcome.success [("access_token", "new-at"), ("refresh_token", "r2")])
        5 sweepConnector).2 = 1 ∧
    (health_check_step (some provider_notion) false "Token expired or revoked"
        (RefreshOutcome.success [("access_token", "new-at"), ("refresh_token", "r2")])
        5 sweepConnector).1.last_health_check_at = some 5 := by
  have h := health_check_step_unhealthy_spec provider_notion false
      "Token expired or revoked"
      (RefreshOutcome.success [("access_token", "new-at"), ("refresh_token", "r2")])
      5 sweepConnector (by decide) (by decide)
  exact ⟨(h.2.1 _ "new-at" rfl (by decide) rfl rfl).1, h.1 rfl (by decide),
    h.2.2.2⟩

/-- C10: when the probe is unhealthy, a refresh token exists, and the refresh
call succeeds with a response carrying no `access_token` field, the stored
access token is retained unchanged in the bundle; the stored refresh token is
overwritten exactly when the response carries a `refresh_token` field; and the
connector still ends the cycle `connected` with a cleared status message. -/
theorem health_check_step_refresh_no_access_token
    (p : OAuthProvider) (message : String)
    (new_tokens : List (String × String)) (now : Int) (connector : Connector)
    (hu : p.userinfo_url ≠ "")
    (ha : (dlookup connector.credentials "access_token").getD "" ≠ "")
    (hrt : (dlookup connector.credentials "refresh_token").getD "" ≠ "")
    (hnone : dlookup new_tokens "access_token" = none) :
    dlookup (health_check_step (some p) false message
        (RefreshOutcome.success new_tokens) now connector).1.credentials
        "access_token" = dlookup connector.credentials "access_token" ∧
    (dlookup new_tokens "refresh_token" = none →
      dlookup (health_check_step (some p) false message
          (RefreshOutcome.success new_tokens) now connector).1.credentials
          "refresh_token" = dlookup connector.credentials "refresh_token") ∧
    (∀ new_rt, dlookup new_tokens "refresh_token" = some new_rt →
      dlookup (health_check_step (some p) false message
          (RefreshOutcome.success new_tokens) now connector).1.credentials
          "refresh_token" = some new_rt) ∧
    (health_check_step (some p) false message
        (RefreshOutcome.success new_tokens) now connector).1.connection_status
      = "connected" ∧
    (health_check_step (some p) false message
        (RefreshOutcome.success new_tokens) now connector).1.status_message
      = none := by
  have hne1 : ∀ (d : List (String × String)) (v : String),
      dlookup (dinsert d "refresh_token" v) "access_token" =
        dlookup d "access_token" :=
    fun d v => dlookup_dinsert_ne d "refresh_token" "access_token" v (by decide)
  have hne2 : ∀ (d : List (String × String)) (v : String),
      dlookup (dinsert d "access_token" v) "refresh_token" =
        dlookup d "refresh_token" :=
    fun d v => dlookup_dinsert_ne d "access_token" "refresh_token" v (by decide)
  rcases hax : dlookup connector.credentials "access_token" with _ | a
  · rw [hax] at ha; simp at ha
  · have hane : a ≠ "" := by rw [hax] at ha; simpa using ha
    rcases hnt : dlookup new_tokens "refresh_token" with _ | nrt
    · refine ⟨?_, ?_, ?_, ?_, ?_⟩ <;>
        simp [health_check_step, hu, hane, hrt, hnt, hnone, hax,
          dlookup_dinsert_self, hne1, hne2]
    · refine ⟨?_, ?_, ?_, ?_, ?_⟩ <;>
        simp [health_check_step, hu, hane, hrt, hnt, hnone, hax,
          dlookup_dinsert_self, hne1, hne2]

/-- Witness for `health_check_step_refresh_no_access_token` at a concrete
connector and refresh response. -/
theorem health_check_step_refresh_no_access_token_witness :
    dlookup (health_check_step (some provider_notion) false
        "Token expired or revoked"
        (RefreshOutcome.success [("refresh_token", "r2")])
        5 sweepConnector).1.credentials "access_token" = some "old-at" ∧
    dlookup (health_check_step (some provider_notion) false
        "Token expired or revoked"
        (RefreshOutcome.success [("refresh_token", "r2")])
        5 sweepConnector).1.credentials "refresh_token" = some "r2" ∧
    (health_check_step (some provider_notion) false "Token expired or revoked"
        (RefreshOutcome.success [("refresh_token", "r2")])
        5 sweepConnector).1.connection_status = "connected" := by
  have h := health_check_step_refresh_no_access_token provider_notion
      "Token expired or revoked" [("refresh_token", "r2")] 5 sweepConnector
      (by decide) (by decide) (by decide) rfl
  refine ⟨?_, h.2.2.1 "r2" rfl, h.2.2.2.1⟩
  rw [h.1]; rfl

/-- C3 (counterexample): the claim's quoted messages do not match the code.
A provider without a userinfo URL yields `(true, "No health check endpoint")`,
not `(true, "no health check available")`, and an HTTP 401 yields
`(false, "Token expired or revoked")`, not `(false, "token expired or
revoked")`. -/
theorem check_connection_health_message_counterexample :
    check_connection_health provider_custom FetchOutcome.ok ≠
      (true, "no health check available") ∧
    check_connection_health provider_custom FetchOutcome.ok =
      (true, "No health check endpoint") ∧
    check_connection_health provider_notion (FetchOutcome.httpError 401) ≠
      (false, "token expired or revoked") ∧
    check_connection_health provider_notion (FetchOutcome.httpError 401) =
      (false, "Token expired or revoked") := by
  refine ⟨by decide, rfl, by decide, rfl⟩

/-- C3 (amended): `check_connection_health` returns, for every provider and
probe outcome: `(true, "No health check endpoint")` when the provider has no
userinfo URL; `(true, "Connected")` on success; `(false, "Token expired or
revoked")` on HTTP 401; `(false, "HTTP <code>")` on any other HTTP error; and
`(false, <cause>)` on any other failure.  The function is total, so no
exception ever propagates. -/
theorem check_connection_health_classification
    (provider : OAuthProvider) (outcome : FetchOutcome) :
    (provider.userinfo_url = "" →
      check_connection_health provider outcome =
        (true, "No health check endpoint")) ∧
    (provider.userinfo_url ≠ "" →
      (outcome = FetchOutcome.ok →
        check_connection_health provider outcome = (true, "Connected")) ∧
      (outcome = FetchOutcome.httpError 401 →
        check_connection_health provider outcome =
          (false, "Token expired or revoked")) ∧
      (∀ status, status ≠ 401 → outcome = FetchOutcome.httpError status →
        check_connection_health provider outcome =
          (false, "HTTP " ++ toString status)) ∧
      (∀ cause, outcome = FetchOutcome.failure cause →
        check_connection_health provider outcome = (false, cause))) := by
  constructor
  · intro h
    simp [check_connection_health, h]
  · intro h
    refine ⟨?_, ?_, ?_, ?_⟩
    · rintro rfl; simp [check_connection_health, h]
    · rintro rfl; simp [check_connection_health, h]
    · rintro status hs rfl; simp [check_connection_health, h, hs]
    · rintro cause rfl; simp [check_connection_health, h]

/-- Witness for `check_connection_health_classification` at concrete catalog
providers and outcomes. -/
theorem check_connection_health_classification_witness :
    check_connection_health provider_custom (FetchOutcome.httpError 500) =
      (true, "No health check endpoint") ∧
    check_connection_health provider_notion (FetchOutcome.httpError 401) =
      (false, "Token expired or revoked") ∧
    check_connection_health provider_notion (FetchOutcome.httpError 503) =
      (false, "HTTP 503") ∧
    check_connection_health provider_notion (FetchOutcome.failure "timeout") =
      (false, "timeout") := by
  refine ⟨?_, ?_, ?_, ?_⟩
  · exact (check_connection_health_classification provider_custom
      (FetchOutcome.httpError 500)).1 rfl
  · exact ((check_connection_health_classification provider_notion
      (FetchOutcome.httpError 401)).2 (by decide)).2.1 rfl
  · have h := ((check_connection_health_classification provider_notion
      (FetchOutcome.httpError 503)).2 (by decide)).2.2.1 503 (by decide) rfl
    simpa using h
  · exact ((check_connection_health_classification provider_notion
      (FetchOutcome.failure "timeout")).2 (by decide)).2.2.2 "timeout" rfl

/-- C4: disconnecting a connector always leaves it with an empty credential
bundle, `is_active = false` and `connection_status = "disconnected"`,
whatever its prior state. -/
theorem disconnect_connector_spec (now : Int) (connector : Connector) :
    (disconnect_connector now connector).credentials = [] ∧
    (disconnect_connector now connector).is_active = false ∧
    (disconnect_connector now connector).connection_status = "disconnected" :=
  ⟨rfl, rfl, rfl⟩

/-- C7: a secret longer than 11 characters masks to its first 7 characters,
an ellipsis, and its last 4 characters; otherwise it masks to its first 4
characters and an ellipsis.  In particular a 28-character secret masks to
`<first7>...<last4>` and an 8-character secret masks to `<first4>...`. -/
theorem mask_api_key_spec (key : String) :
    (key.length > 11 →
      mask_api_key key = key.take 7 ++ "..." ++ key.takeRight 4) ∧
    (key.length ≤ 11 → mask_api_key key = key.take 4 ++ "...") ∧
    mask_api_key "abcdefghijklmnopqrstuvwxyz01" = "abcdefg" ++ "..." ++ "yz01" ∧
    mask_api_key "abcdefgh" = "abcd" ++ "..." := by
  refine ⟨?_, ?_, rfl, rfl⟩
  · intro h
    rw [mask_api_key, if_pos h]
  · intro h
    rw [mask_api_key, if_neg (not_lt.mpr h)]

/-- Witness for `mask_api_key_spec` at the claim's two concrete lengths. -/
theorem mask_api_key_spec_witness :
    mask_api_key "abcdefghijklmnopqrstuvwxyz01" =
      "abcdefghijklmnopqrstuvwxyz01".take 7 ++ "..." ++
        "abcdefghijklmnopqrstuvwxyz01".takeRight 4 ∧
    mask_api_key "abcdefgh" = "abcdefgh".take 4 ++ "..." :=
  ⟨(mask_api_key_spec "abcdefghijklmnopqrstuvwxyz01").1 (by decide),
   (mask_api_key_spec "abcdefgh").2.1 (by decide)⟩

/-- C9: every create-connector request on the credential path — the
`credentials` mapping may be empty — yields a connector with
`auth_method = "credential"`, `connection_status = "connected"` and
`is_active = true`; no validation gates the `connected` status. -/
theorem create_connector_credential_spec (now : Int) (customer_id : String)
    (request : CreateConnectorRequest) :
    (create_connector now customer_id request).auth_method = "credential" ∧
    (create_connector now customer_id request).connection_status = "connected" ∧
    (create_connector now customer_id request).is_active = true ∧
    (create_connector now customer_id
        { request with credentials := [] }).auth_method = "credential" ∧
    (create_connector now customer_id
        { request with credentials := [] }).connection_status = "connected" ∧
    (create_connector now customer_id
        { request with credentials := [] }).is_active = true :=
  ⟨rfl, rfl, rfl, rfl, rfl, rfl⟩

/-- A concrete connector whose credential bundle holds no usable secret. -/
def connNoCreds : Connector := {
  customer_id := "cust"
  app_name := "notion"
  display_name := "Notion"
  credentials := []
  is_active := true
  auth_method := "oauth"
  connection_status := "connected" }

/-- C6 (counterexample): with no usable credential the sync raises before the
job row is ever created, so no job exists on which the message could be
recorded — the database job list stays empty and, in particular, no job
carries the error message.  The claim's "records the message on the job"
clause therefore fails. -/
theorem sync_missing_credential_counterexample :
    (sync_connector 0 connNoCreds [] (SyncPhase.success 3)).1 =
      Except.error "Notion API key not configured" ∧
    (sync_connector 0 connNoCreds [] (SyncPhase.success 3)).2.1 = [] ∧
    ¬ (∃ job ∈ (sync_connector 0 connNoCreds [] (SyncPhase.success 3)).2.1,
        job.error_message = some "Notion API key not configured") ∧
    (sync_connector 0 connNoCreds [] (SyncPhase.success 3)).2.2 = connNoCreds := by
  refine ⟨rfl, rfl, ?_, rfl⟩
  rintro ⟨job, hj, _⟩
  rw [show (sync_connector 0 connNoCreds [] (SyncPhase.success 3)).2.1 = []
    from rfl] at hj
  cases hj

/-- C6 (amended): when the credential bundle yields no usable secret (neither
`api_key` nor `access_token`), the sync fails fast with the missing-credential
error before creating any job row: the job list is unchanged (in particular no
zero-chunk success job is created) and the connector — its status fields
included — is untouched. -/
theorem sync_missing_credential_spec (now : Int) (connector : Connector)
    (jobs : List IngestionJob) (phase : SyncPhase)
    (h : notion_api_key connector.credentials = "") :
    sync_connector now connector jobs phase =
      (Except.error "Notion API key not configured", jobs, connector) := by
  simp [sync_connector, h]

/-- Witness for `sync_missing_credential_spec` at a concrete connector. -/
theorem sync_missing_credential_spec_witness :
    sync_connector 0 connNoCreds [] (SyncPhase.success 3) =
      (Except.error "Notion API key not configured", [], connNoCreds) :=
  sync_missing_credential_spec 0 connNoCreds [] (SyncPhase.success 3) rfl

/-- A state store holding one freshly created entry (with a well-formed
customer UUID, as `authorize` stores `str(customer.id)`) for the callback
counterexample. -/
def storeWithNotionState : OAuthStateStore :=
  [("s", ⟨"123e4567-e89b-12d3-a456-426614174000", "notion", 0⟩)]

/-- C5 (counterexample): an invocation whose identity fetch fails (code
exchange succeeded, `fetch_user_info` raised) does not redirect with an error
parameter: the exception is caught inside the handler, the connector is still
created, and the browser is redirected with `oauth_success=notion`.  The
claim's "failed identity fetch" failure path therefore does not exist. -/
theorem oauth_callback_identity_failure_counterexample :
    (oauth_callback "http://admin" (some "c0") (some "s") none
        storeWithNotionState 10 (some [("access_token", "tok")])
        none).redirect_url = "http://admin/index.html?oauth_success=notion" ∧
    (oauth_callback "http://admin" (some "c0") (some "s") none
        storeWithNotionState 10 (some [("access_token", "tok")])
        none).redirect_url ≠ "http://admin/index.html?oauth_error=notion" ∧
    (oauth_callback "http://admin" (some "c0") (some "s") none
        storeWithNotionState 10 (some [("access_token", "tok")])
        none).connector_created.isSome = true := by
  refine ⟨rfl, by decide, rfl⟩

/-- C5 (amended): every failing path of the OAuth callback — provider error
parameter, missing code or state, invalid or expired state token, unknown
provider, failed code exchange, or a post-exchange `ValueError` inside the
try block (a malformed `expires_in` in the token response, or a stored
customer id that is not a valid UUID) — answers with a browser redirect to
the admin URL carrying a query parameter identifying the error kind
(`missing_params`, `invalid_state`, `unknown_provider`, or the provider id on
exchange or post-exchange failure) and creates no connector; no raw API error
is returned (every path of `oauth_callback` is a redirect).  A failed
identity fetch, by contrast, does not fail the flow: with a parsable
`expires_in` (or none) and a valid stored customer id, the handler still
creates the connector and redirects with `oauth_success=<provider id>`. -/
theorem oauth_callback_redirects
    (client_admin_url : String) (code state error : Option String)
    (store : OAuthStateStore) (now : Int)
    (exchange : Option (List (String × String)))
    (identity : Option (List (String × PyVal)))
    (r : CallbackResult)
    (hr : r = oauth_callback client_admin_url code state error store now
      exchange identity) :
    (pyTruthy error = true →
      r.redirect_url = pyRstripSlash client_admin_url ++
        "/index.html?oauth_error=" ++ error.getD "" ∧
      r.connector_created = none) ∧
    (pyTruthy error = false →
      (pyTruthy state = false ∨ pyTruthy code = false) →
      r.redirect_url = pyRstripSlash client_admin_url ++
        "/index.html?oauth_error=missing_params" ∧
      r.connector_created = none) ∧
    (pyTruthy error = false → pyTruthy state = true → pyTruthy code = true →
      (OAuthStateStore.consume store now (state.getD "")).1 = none →
      r.redirect_url = pyRstripSlash client_admin_url ++
        "/index.html?oauth_error=invalid_state" ∧
      r.connector_created = none) ∧
    (∀ entry, pyTruthy error = false → pyTruthy state = true →
      pyTruthy code = true →
      (OAuthStateStore.consume store now (state.getD "")).1 = some entry →
      get_provider entry.provider_id = none →
      r.redirect_url = pyRstripSlash client_admin_url ++
        "/index.html?oauth_error=unknown_provider" ∧
      r.connector_created = none) ∧
    (∀ entry provider, pyTruthy error = false → pyTruthy state = true →
      pyTruthy code = true →
      (OAuthStateStore.consume store now (state.getD "")).1 = some entry →
      get_provider entry.provider_id = some provider →
      exchange = none →
      r.redirect_url = pyRstripSlash client_admin_url ++
        "/index.html?oauth_error=" ++ provider.provider_id ∧
      r.connector_created = none) ∧
    (∀ entry provider token_data, pyTruthy error = false →
      pyTruthy state = true → pyTruthy code = true →
      (OAuthStateStore.consume store now (state.getD "")).1 = some entry →
      get_provider entry.provider_id = some provider →
      exchange = some token_data → identity = none →
      (∀ s, dlookup token_data "expires_in" = some s →
        (pyIntOfString s).isSome = true) →
      pyUUIDValid entry.customer_id = true →
      r.redirect_url = pyRstripSlash client_admin_url ++
        "/index.html?oauth_success=" ++ provider.provider_id ∧
      r.connector_created.isSome = true) ∧
    (∀ entry provider token_data s, pyTruthy error = false →
      pyTruthy state = true → pyTruthy code = true →
      (OAuthStateStore.consume store now (state.getD "")).1 = some entry →
      get_provider entry.provider_id = some provider →
      exchange = some token_data →
      dlookup token_data "expires_in" = some s → pyIntOfString s = none →
      r.redirect_url = pyRstripSlash client_admin_url ++
        "/index.html?oauth_error=" ++ provider.provider_id ∧
      r.connector_created = none) ∧
    (∀ entry provider token_data, pyTruthy error = false →
      pyTruthy state = true → pyTruthy code = true →
      (OAuthStateStore.consume store now (state.getD "")).1 = some entry →
      get_provider entry.provider_id = some provider →
      exchange = some token_data →
      (∀ s, dlookup token_data "expires_in" = some s →
        (pyIntOfString s).isSome = true) →
      pyUUIDValid entry.customer_id = false →
      r.redirect_url = pyRstripSlash client_admin_url ++
        "/index.html?oauth_error=" ++ provider.provider_id ∧
      r.connector_created = none) := by
  subst hr
  refine ⟨?_, ?_, ?_, ?_, ?_, ?_, ?_, ?_⟩
  · intro herr
    simp [oauth_callback, herr]
  · intro herr hsc
    rcases hsc with h | h <;> simp [oauth_callback, herr, h]
  · intro herr hs hc hcons
    simp [oauth_callback, herr, hs, hc, hcons]
  · intro entry herr hs hc hcons hprov
    simp [oauth_callback, herr, hs, hc, hcons, hprov]
  · intro entry provider herr hs hc hcons hprov hex
    subst hex
    simp [oauth_callback, herr, hs, hc, hcons, hprov]
  · intro entry provider token_data herr hs hc hcons hprov hex hid hexp huuid
    subst hex; subst hid
    rcases hsin : dlookup token_data "expires_in" with _ | s
    · simp [oauth_callback, herr, hs, hc, hcons, hprov, hsin, huuid]
    · have hps := hexp s hsin
      rcases hpe : pyIntOfString s with _ | e
      · rw [hpe] at hps; simp at hps
      · simp [oauth_callback, herr, hs, hc, hcons, hprov, hsin, hpe, huuid]
  · intro entry provider token_data s herr hs hc hcons hprov hex hsin hpe
    subst hex
    simp [oauth_callback, herr, hs, hc, hcons, hprov, hsin, hpe]
  · intro entry provider token_data herr hs hc hcons hprov hex hexp huuid
    subst hex
    rcases hsin : dlookup token_data "expires_in" with _ | s
    · simp [oauth_callback, herr, hs, hc, hcons, hprov, hsin, huuid]
    · have hps := hexp s hsin
      rcases hpe : pyIntOfString s with _ | e
      · rw [hpe] at hps; simp at hps
      · simp [oauth_callback, herr, hs, hc, hcons, hprov, hsin, hpe, huuid]

/-- Witness for `oauth_callback_redirects`: the missing-params path, the
identity-fetch-failure success path, and the invalid-stored-customer-id error
path, at concrete inputs. -/
theorem oauth_callback_redirects_witness :
    (oauth_callback "http://admin" none none none [] 0 none none).redirect_url =
      "http://admin/index.html?oauth_error=missing_params" ∧
    (oauth_callback "http://admin" (some "c0") (some "s") none
        storeWithNotionState 10 (some [("access_token", "tok")])
        none).redirect_url = "http://admin/index.html?oauth_success=notion" ∧
    (oauth_callback "http://admin" (some "c0") (some "s") none
        [("s", ⟨"cust", "notion", 0⟩)] 10 (some [("access_token", "tok")])
        none).redirect_url = "http://admin/index.html?oauth_error=notion" := by
  refine ⟨?_, ?_, ?_⟩
  · have h := ((oauth_callback_redirects "http://admin" none none none [] 0
      none none _ rfl).2.1 rfl (Or.inl rfl)).1
    rw [h]; rfl
  · have h := ((oauth_callback_redirects "http://admin" (some "c0") (some "s")
      none storeWithNotionState 10 (some [("access_token", "tok")]) none _
      rfl).2.2.2.2.2.1 ⟨"123e4567-e89b-12d3-a456-426614174000", "notion", 0⟩
      provider_notion [("access_token", "tok")] rfl rfl rfl rfl rfl rfl rfl
      (fun s hcontra => Option.noConfusion hcontra) rfl).1
    rw [h]; rfl
  · have h := ((oauth_callback_redirects "http://admin" (some "c0") (some "s")
      none [("s", ⟨"cust", "notion", 0⟩)] 10 (some [("access_token", "tok")])
      none _ rfl).2.2.2.2.2.2.2 ⟨"cust", "notion", 0⟩ provider_notion
      [("access_token", "tok")] rfl rfl rfl rfl rfl rfl
      (fun s hcontra => Option.noConfusion hcontra) rfl).1
    rw [h]; rfl

/-- The query-parameter keys that `get_authorization_url` itself sets. -/
def reservedAuthKeys : List String :=
  ["client_id", "redirect_uri", "response_type", "state", "scope"]

/-- Boolean check that a provider's `extra_auth_params` do not collide with
the reserved keys and have pairwise-distinct keys. -/
def extraOKb (p : OAuthProvider) : Bool :=
  p.extra_auth_params.all (fun kv => decide (kv.1 ∉ reservedAuthKeys)) &&
    decide ((p.extra_auth_params.map Prod.fst).Nodup)

/-- Every provider of the catalog passes `extraOKb`. -/
theorem allProviders_extraOKb : _PROVIDERS.all extraOKb = true := by decide

theorem baseAuthParams_eq_nil (client_id cb st : String) :
    baseAuthParams client_id cb st [] =
      [("client_id", client_id), ("redirect_uri", cb),
       ("response_type", "code"), ("state", st)] := rfl

theorem baseAuthParams_eq_cons (client_id cb st : String)
    (scopes : List String) (h : scopes ≠ []) :
    baseAuthParams client_id cb st scopes =
      [("client_id", client_id), ("redirect_uri", cb),
       ("response_type", "code"), ("state", st),
       ("scope", String.intercalate " " scopes)] := by
  simp only [baseAuthParams]
  rw [if_pos h]
  rfl

theorem baseAuthParams_isSome (client_id cb st : String)
    (scopes : List String) (k : String) :
    (dlookup (baseAuthParams client_id cb st scopes) k).isSome = true ↔
      (k ∈ (["client_id", "redirect_uri", "response_type", "state"] :
          List String) ∨
       (scopes ≠ [] ∧ k = "scope")) := by
  by_cases h : scopes = []
  · subst h
    rw [baseAuthParams_eq_nil, dlookup_isSome_iff]
    simp
  · rw [baseAuthParams_eq_cons _ _ _ _ h, dlookup_isSome_iff]
    simp [h]
    tauto

theorem get_authorization_url_spec
    (env : String → String) (provider : OAuthProvider)
    (customer_id callback_url token : String) (now : Int)
    (store : OAuthStateStore)
    (hdisj : ∀ kv ∈ provider.extra_auth_params, kv.1 ∉ reservedAuthKeys)
    (hnd : (provider.extra_auth_params.map Prod.fst).Nodup) :
    dlookup (get_authorization_url env provider customer_id callback_url token
        now store).1 "client_id" = some (env provider.client_id_env) ∧
    dlookup (get_authorization_url env provider customer_id callback_url token
        now store).1 "redirect_uri" = some callback_url ∧
    dlookup (get_authorization_url env provider customer_id callback_url token
        now store).1 "response_type" = some "code" ∧
    dlookup (get_authorization_url env provider customer_id callback_url token
        now store).1 "state" = some token ∧
    (get_authorization_url env provider customer_id callback_url token now
        store).2.1 = token ∧
    (provider.scopes ≠ [] →
      dlookup (get_authorization_url env provider customer_id callback_url
          token now store).1 "scope" =
        some (String.intercalate " " provider.scopes)) ∧
    (provider.scopes = [] →
      dlookup (get_authorization_url env provider customer_id callback_url
          token now store).1 "scope" = none) ∧
    (∀ kv ∈ provider.extra_auth_params,
      dlookup (get_authorization_url env provider customer_id callback_url
          token now store).1 kv.1 = some kv.2) ∧
    (∀ k, (dlookup (get_authorization_url env provider customer_id
          callback_url token now store).1 k).isSome = true ↔
      (k ∈ (["client_id", "redirect_uri", "response_type", "state"] :
          List String) ∨
       (provider.scopes ≠ [] ∧ k = "scope") ∨
       k ∈ provider.extra_auth_params.map Prod.fst)) ∧
    dlookup (get_authorization_url env provider customer_id callback_url token
        now store).2.2 token =
      some ⟨customer_id, provider.provider_id, now⟩ := by
  have hres : ∀ k0 ∈ reservedAuthKeys,
      k0 ∉ provider.extra_auth_params.map Prod.fst := by
    intro k0 hk0 hmem
    obtain ⟨kv, hkv, hfst⟩ := List.mem_map.mp hmem
    exact hdisj kv hkv (hfst.symm ▸ hk0)
  have hnotm : ∀ k0, k0 ∈ reservedAuthKeys →
      dlookup (get_authorization_url env provider customer_id callback_url
          token now store).1 k0 =
        dlookup (baseAuthParams (env provider.client_id_env) callback_url
          token provider.scopes) k0 :=
    fun k0 hk0 => dlookup_dupdate_notmem _ _ _ (hres k0 hk0)
  have hb4 : ∀ k0, ¬ ("scope" = k0) →
      dlookup (baseAuthParams (env provider.client_id_env) callback_url token
          provider.scopes) k0 =
        dlookup [("client_id", env provider.client_id_env),
                 ("redirect_uri", callback_url),
                 ("response_type", "code"), ("state", token)] k0 := by
    intro k0 hk0
    by_cases h : provider.scopes = []
    · rw [h, baseAuthParams_eq_nil]
    · rw [baseAuthParams_eq_cons _ _ _ _ h]
      simp [dlookup, hk0]
  refine ⟨?_, ?_, ?_, ?_, rfl, ?_, ?_, ?_, ?_, ?_⟩
  · rw [hnotm "client_id" (by decide), hb4 "client_id" (by decide)]; rfl
  · rw [hnotm "redirect_uri" (by decide), hb4 "redirect_uri" (by decide)]; rfl
  · rw [hnotm "response_type" (by decide), hb4 "response_type" (by decide)]; rfl
  · rw [hnotm "state" (by decide), hb4 "state" (by decide)]; rfl
  · intro h
    rw [hnotm "scope" (by decide), baseAuthParams_eq_cons _ _ _ _ h]; rfl
  · intro h
    rw [hnotm "scope" (by decide), h, baseAuthParams_eq_nil]; rfl
  · intro kv hkv
    exact dlookup_dupdate_mem provider.extra_auth_params kv.1 kv.2 _ hnd hkv
  · intro k
    exact (dlookup_dupdate_isSome _ provider.extra_auth_params k).trans
      ((or_congr (baseAuthParams_isSome _ _ _ _ k) Iff.rfl).trans or_assoc)
  · exact dlookup_dinsert_self _ _ _

/-- C8: for every provider of the catalog, every configuration, customer and
callback URL, the authorization query parameters contain exactly `client_id`
(resolved from configuration), `redirect_uri` equal to the callback URL,
`response_type=code`, a `state` equal to the freshly stored state token, a
`scope` equal to the space-joined scope list present if and only if the scope
list is non-empty, and every entry of the provider's `extra_auth_params`; and
the returned state token is bound in the store to the customer and provider. -/
theorem get_authorization_url_params
    (provider : OAuthProvider) (hp : provider ∈ _PROVIDERS)
    (env : String → String) (customer_id callback_url token : String)
    (now : Int) (store : OAuthStateStore) :
    dlookup (get_authorization_url env provider customer_id callback_url token
        now store).1 "client_id" = some (env provider.client_id_env) ∧
    dlookup (get_authorization_url env provider customer_id callback_url token
        now store).1 "redirect_uri" = some callback_url ∧
    dlookup (get_authorization_url env provider customer_id callback_url token
        now store).1 "response_type" = some "code" ∧
    dlookup (get_authorization_url env provider customer_id callback_url token
        now store).1 "state" = some token ∧
    (get_authorization_url env provider customer_id callback_url token now
        store).2.1 = token ∧
    (provider.scopes ≠ [] →
      dlookup (get_authorization_url env provider customer_id callback_url
          token now store).1 "scope" =
        some (String.intercalate " " provider.scopes)) ∧
    (provider.scopes = [] →
      dlookup (get_authorization_url env provider customer_id callback_url
          token now store).1 "scope" = none) ∧
    (∀ kv ∈ provider.extra_auth_params,
      dlookup (get_authorization_url env provider customer_id callback_url
          token now store).1 kv.1 = some kv.2) ∧
    (∀ k, (dlookup (get_authorization_url env provider customer_id
          callback_url token now store).1 k).isSome = true ↔
      (k ∈ (["client_id", "redirect_uri", "response_type", "state"] :
          List String) ∨
       (provider.scopes ≠ [] ∧ k = "scope") ∨
       k ∈ provider.extra_auth_params.map Prod.fst)) ∧
    dlookup (get_authorization_url env provider customer_id callback_url token
        now store).2.2 token =
      some ⟨customer_id, provider.provider_id, now⟩ := by
  have hall := List.all_eq_true.mp allProviders_extraOKb provider hp
  simp only [extraOKb, Bool.and_eq_true, List.all_eq_true,
    decide_eq_true_eq] at hall
  exact get_authorization_url_spec env provider customer_id callback_url token
    now store hall.1 hall.2

/-- Witness for `get_authorization_url_params` at the Notion catalog entry. -/
theorem get_authorization_url_params_witness :
    dlookup (get_authorization_url (fun _ => "cid") provider_notion "cust"
        "http://cb" "tok" 0 []).1 "client_id" = some "cid" ∧
    dlookup (get_authorization_url (fun _ => "cid") provider_notion "cust"
        "http://cb" "tok" 0 []).1 "state" = some "tok" ∧
    dlookup (get_authorization_url (fun _ => "cid") provider_notion "cust"
        "http://cb" "tok" 0 []).1 "owner" = some "user" ∧
    dlookup (get_authorization_url (fun _ => "cid") provider_notion "cust"
        "http://cb" "tok" 0 []).1 "scope" = none := by
  have h := get_authorization_url_params provider_notion (List.Mem.head _)
      (fun _ => "cid") "cust" "http://cb" "tok" 0 []
  exact ⟨h.1, h.2.2.2.1, h.2.2.2.2.2.2.2.1 ("owner", "user") (by decide),
    h.2.2.2.2.2.2.1 rfl⟩
